import Mathlib

/-!
Verification development for the TheWorkshop turn-orchestration engine
(src/workshop.py, src/participant.py, src/llm_interface.py).

The Python classes are embedded shallowly:

* mutable object state becomes explicit record passing (`Workshop` mirrors
  the fields set in `Workshop.__init__`);
* the external inference provider (ollama `client.chat`) is an oracle: a
  list of replies consumed one per call, where `LLMReply.err` stands for a
  transport failure or malformed payload (ProviderError) and an exhausted
  list behaves the same;
* `random.choice` and `random.shuffle` are given injectable sources: a
  list of naturals popped per `choice`, and a caller-supplied permutation
  for `shuffle`;
* `uuid.uuid4()` defaults are a caller-supplied stream `Nat → String`;
* Python exceptions that escape a handler are a `raised` flag (the code
  has no try/except on the turn path, so they propagate to the caller);
* file writes that do not feed back into engine state (transcript dump,
  per-participant response logs, summary.txt) are dropped; the JSON
  snapshot layer of save_state/load_state is modelled at the record level,
  since `json.dump`/`json.load` is a bijection on the record contents.
-/

/-- Mirrors participant.py `Participant` (a dataclass; equality is
field-wise).  `prompts` holds the name/prompt pairs of `add_prompt`. -/
structure Participant where
  name : String
  role : String
  background : String
  is_facilitator : Bool
  contributions : Nat
  last_spoke_turn : Nat
  mood : String
  prompts : List (String × String)
  uuid : String
deriving Repr, DecidableEq, Inhabited

/-- Mirrors workshop.py `TranscriptEntry` (round, turn, participant_uuid,
content). -/
structure TranscriptEntry where
  round : Nat
  turn : Nat
  participant_uuid : String
  content : String
deriving Repr, DecidableEq

/-- Mirrors workshop.py `WorkshopState` enum. -/
inductive WorkshopState where
  | NOT_STARTED
  | STARTED
  | ENDING
deriving Repr, DecidableEq

/-- The `.value` of the Python enum member. -/
def WorkshopState.value : WorkshopState → Nat
  | .NOT_STARTED => 0
  | .STARTED => 1
  | .ENDING => 2

/-- Python `WorkshopState(n)`: looks an enum member up by value, raising
(`none`) on an unknown value. -/
def WorkshopState.ofValue : Nat → Option WorkshopState
  | 0 => some .NOT_STARTED
  | 1 => some .STARTED
  | 2 => some .ENDING
  | _ => none

/-- One participant record of the configuration
(`global_config["participants"]` elements).  `background` and
`is_facilitator` are optional keys read with `.get` defaults. -/
structure PData where
  name : String
  role : String
  background : Option String
  is_facilitator : Option Bool
deriving Repr, DecidableEq

/-- The merged configuration dictionary, restricted to the two keys the
engine reads: `workshop.name` (start precondition and opening prompt) and
`participants` (roster extraction).  A missing `workshop` dict or a
missing `name` key is `none`. -/
structure Config where
  workshop_name : Option String
  participants : Option (List PData)
deriving Repr, DecidableEq

/-- Python truthiness of `global_config.get("workshop", {}).get("name")`:
missing key or empty string is falsy. -/
def Config.hasName (c : Config) : Bool :=
  match c.workshop_name with
  | some n => n != ""
  | none => false

/-- The mutable fields set in `Workshop.__init__` (the `llm` client is
behaviour, not state, and lives in the oracle). -/
structure Workshop where
  transcript_content : List TranscriptEntry
  control_feedback : List String
  global_config : Config
  participants : List Participant
  facilitator : Option Participant
  current_participant_index : Int
  state : WorkshopState
  previous_participant : Option Participant
  current_turn : Nat
  tokens_used : Nat
  context_length : Nat
  current_round : Nat
deriving Repr, DecidableEq

/-- The JSON snapshot written by `Workshop.save_state`: the same fields,
with dataclasses flattened by `asdict` (left as records here, since the
dict layer is in bijection with them) and the lifecycle enum stored as its
integer `.value`. -/
structure SavedState where
  transcript_content : List TranscriptEntry
  control_feedback : List String
  global_config : Config
  participants : List Participant
  facilitator : Option Participant
  current_participant_index : Int
  state : Nat
  previous_participant : Option Participant
  current_turn : Nat
  tokens_used : Nat
  context_length : Nat
  current_round : Nat
deriving Repr, DecidableEq

/-- `Workshop.save_state`: serialize every field, the enum as `.value`. -/
def save_state (w : Workshop) : SavedState :=
  { transcript_content := w.transcript_content
    control_feedback := w.control_feedback
    global_config := w.global_config
    participants := w.participants
    facilitator := w.facilitator
    current_participant_index := w.current_participant_index
    state := w.state.value
    previous_participant := w.previous_participant
    current_turn := w.current_turn
    tokens_used := w.tokens_used
    context_length := w.context_length
    current_round := w.current_round }

/-- `Workshop.load_state`: rebuild every field from the snapshot;
`WorkshopState(state["state"])` raises (`none`) on an invalid value. -/
def load_state (s : SavedState) : Option Workshop :=
  match WorkshopState.ofValue s.state with
  | none => none
  | some st =>
    some
      { transcript_content := s.transcript_content
        control_feedback := s.control_feedback
        global_config := s.global_config
        participants := s.participants
        facilitator := s.facilitator
        current_participant_index := s.current_participant_index
        state := st
        previous_participant := s.previous_participant
        current_turn := s.current_turn
        tokens_used := s.tokens_used
        context_length := s.context_length
        current_round := s.current_round }

/-- Looking an enum member up by its own value succeeds. -/
theorem WorkshopState.ofValue_value (st : WorkshopState) :
    WorkshopState.ofValue st.value = some st := by
  cases st <;> rfl

/-- Claim C1: deserializing the serialized snapshot of any session state
yields a session state equal to it in every field. -/
theorem load_state_save_state (w : Workshop) :
    load_state (save_state w) = some w := by
  unfold load_state save_state
  rw [WorkshopState.ofValue_value]

/-- One reply of the external inference service to one `client.chat` call:
either generated content together with the token count the interface
computes from the usage fields, or a ProviderError (transport failure or
malformed payload). -/
inductive LLMReply where
  | ok (content : String) (tokens : Nat)
  | err
deriving Repr, DecidableEq

/-- The provider oracle: replies consumed one per call, in order.  An
exhausted oracle behaves like a failing call. -/
abbrev Oracle := List LLMReply

/-- A Python value returned by `LLMInterface.get_response`: with
`get_tokens=True` the content string and the token count, with
`get_tokens=False` the raw response object (a dict, not a string). -/
inductive PyResponse where
  | text (content : String) (tokens : Nat)
  | raw (content : String) (tokens : Nat)
deriving Repr, DecidableEq

/-- llm_interface.py `LLMInterface.get_response`: one provider call.  The
side write to llm_response.txt is dropped.  A raised exception is
`Except.error ()`. -/
def LLMInterface.get_response (o : Oracle) (get_tokens : Bool) :
    Oracle × Except Unit PyResponse :=
  match o with
  | [] => ([], Except.error ())
  | LLMReply.err :: rest => (rest, Except.error ())
  | LLMReply.ok c t :: rest =>
    (rest, Except.ok (if get_tokens then PyResponse.text c t else PyResponse.raw c t))

/-- Python `s.lower()` (ASCII model). -/
def pyLower (s : String) : String :=
  String.mk (s.data.map Char.toLower)

/-- Python `s.startswith(pre)`. -/
def pyStartsWith (s pre : String) : Bool :=
  pre.data.isPrefixOf s.data

/-- Python `response.lstrip().lower()[:4] == "pass"` from
`Participant.check_reponse`. -/
def pyPassJudgement (c : String) : Bool :=
  String.mk (((c.data.dropWhile Char.isWhitespace).map Char.toLower).take 4) == "pass"

/-- participant.py `Participant.check_reponse` (sic): a second provider
call judging the response; returns whether the judgement starts with
"pass".  The write to state/checker_reponse.txt is dropped. -/
def Participant.check_reponse (o : Oracle) : Oracle × Except Unit Bool :=
  match LLMInterface.get_response o true with
  | (o1, Except.error e) => (o1, Except.error e)
  | (o1, Except.ok (PyResponse.raw _ _)) => (o1, Except.error ())
  | (o1, Except.ok (PyResponse.text c _)) => (o1, Except.ok (pyPassJudgement c))

/-- participant.py `Participant.generate_response`: one generation call
(returning content and tokens), then the advisory check call; the check
only prefixes the content with PASS: or FAIL:, and the returned token
count is the generation call's alone.  The write to
state/participant_<name>_reponse.txt is dropped.  An exception at either
call propagates. -/
def Participant.generate_response (o : Oracle) : Oracle × Except Unit (String × Nat) :=
  match LLMInterface.get_response o true with
  | (o1, Except.error e) => (o1, Except.error e)
  | (o1, Except.ok (PyResponse.raw _ _)) => (o1, Except.error ())
  | (o1, Except.ok (PyResponse.text response tokens)) =>
    match Participant.check_reponse o1 with
    | (o2, Except.error e) => (o2, Except.error e)
    | (o2, Except.ok check) =>
      (o2, Except.ok ((if check then "PASS: " else "FAIL: ") ++ response, tokens))

/-- workshop.py `Workshop.take_facilitator_turn`.  Python sets
`previous_participant` and increments `current_turn` before the provider
call; if `facilitator` is None the attribute access raises, and if the
provider call raises the exception propagates, in both cases with those
mutations already applied.  On success it appends the transcript entry
and a control message and overwrites `tokens_used`.  The facilitator's
own stats are never updated here.  The returned Bool is the raised flag. -/
def take_facilitator_turn (st : Workshop) (o : Oracle) : Workshop × Oracle × Bool :=
  let st1 := { st with previous_participant := st.facilitator,
                       current_turn := st.current_turn + 1 }
  match st.facilitator with
  | none => (st1, o, true)
  | some f =>
    match Participant.generate_response o with
    | (o1, Except.error _) => (st1, o1, true)
    | (o1, Except.ok (response, tokens)) =>
      ({ st1 with
          transcript_content := st1.transcript_content ++
            [{ round := st1.current_round, turn := st1.current_turn,
               participant_uuid := f.uuid, content := response }],
          control_feedback := st1.control_feedback ++
            [f.name ++ " (F) has spoken. Use /next to continue."],
          tokens_used := tokens }, o1, false)

/-- workshop.py `Workshop.take_participant_turn`, with the participant
given by its index in `participants` (Python passes the list element
itself and mutates it in place; the index names that element).  An index
that resolves to no participant is the `participant is None` early
return.  Python order: set `previous_participant`, increment
`current_turn`, call `update_stats` (contributions += 1, last_spoke_turn
= current_turn) — all BEFORE the provider call, so they survive a
provider failure; since `previous_participant` aliases the mutated
object, its final value is the updated record. -/
def take_participant_turn (i : Nat) (st : Workshop) (o : Oracle) : Workshop × Oracle × Bool :=
  match st.participants.get? i with
  | none => (st, o, false)
  | some p =>
    let p1 := { p with contributions := p.contributions + 1,
                       last_spoke_turn := st.current_turn + 1 }
    let st1 := { st with participants := st.participants.set i p1,
                         previous_participant := some p1,
                         current_turn := st.current_turn + 1 }
    match Participant.generate_response o with
    | (o1, Except.error _) => (st1, o1, true)
    | (o1, Except.ok (response, tokens)) =>
      ({ st1 with
          transcript_content := st1.transcript_content ++
            [{ round := st1.current_round, turn := st1.current_turn,
               participant_uuid := p1.uuid, content := response }],
          control_feedback := st1.control_feedback ++
            [p1.name ++ " has spoken. Use /next to continue."],
          tokens_used := tokens }, o1, false)

/-- The injectable source for `random.choice`: one natural consumed per
choice, reduced modulo the list length. -/
abbrev RandSrc := List Nat

/-- `random.choice(l)` over indices: raises IndexError on an empty list;
an exhausted source is treated like a failing external call. -/
def pyChoiceIdx (l : List Nat) (r : RandSrc) : RandSrc × Except Unit Nat :=
  match r with
  | [] => ([], Except.error ())
  | k :: r1 =>
    match l with
    | [] => (r1, Except.error ())
    | _ :: _ => (r1, Except.ok (l.getD (k % l.length) 0))

/-- workshop.py `Workshop.pick_participant_by_name`: case-insensitive
prefix match over `participants`, first match wins; on no match a control
message is appended and None is returned.  The result is the index of the
matching participant (Python returns the object itself). -/
def pick_participant_by_name (st : Workshop) (name : String) : Workshop × Option Nat :=
  match (List.range st.participants.length).filter
      (fun i => pyStartsWith (pyLower ((st.participants.getD i default).name)) (pyLower name)) with
  | [] =>
    ({ st with control_feedback := st.control_feedback ++
        ["No participant found whose name starts with " ++ name] }, none)
  | i :: _ => (st, some i)

/-- workshop.py `Workshop.llm_pick_participant`.  The suggestion request
is made with `get_tokens=False`, so `get_response` returns the raw
response object; `suggestion.split("Next speaker:")` is then an attribute
access on a non-string and raises AttributeError.  A provider failure
also propagates.  (Were the content a string, the code would take the
text after the last "Next speaker:", strip it, and resolve it by prefix
match, returning None when unresolved; that branch is unreachable with
`get_tokens=False`.) -/
def llm_pick_participant (st : Workshop) (o : Oracle) :
    Workshop × Oracle × Except Unit (Option Nat) :=
  match LLMInterface.get_response o false with
  | (o1, Except.error e) => (st, o1, Except.error e)
  | (o1, Except.ok (PyResponse.raw _ _)) => (st, o1, Except.error ())
  | (o1, Except.ok (PyResponse.text c _)) =>
    let suggested_name := ((c.splitOn "Next speaker:").getLastD c).trim
    let (st1, idx) := pick_participant_by_name st suggested_name
    (st1, o1, Except.ok idx)

/-- The `[p for p in self.participants if p != self.previous_participant]`
filter of `handle_next_command`, over indices, with the
`if not available_participants` fallback to the whole roster. -/
def availableIdx (st : Workshop) : List Nat :=
  let idxs := (List.range st.participants.length).filter
    (fun i => !(some (st.participants.getD i default) == st.previous_participant))
  match idxs with
  | [] => List.range st.participants.length
  | _ :: _ => idxs

/-- The `for _ in range(turn_to_take)` loop body of
`handle_next_command`, iterated `n` times.  Each iteration selects a
participant (random-exclude-previous when no argument, provider-assisted
on "?", by-name-prefix otherwise) and takes the turn when one was found;
a selection that resolves nobody skips the turn; a raised exception
aborts the remaining iterations.  The final Bool is the raised flag. -/
def nextLoop : Nat → List String → Workshop → Oracle → RandSrc → Workshop × Oracle × RandSrc × Bool
  | 0, _, st, o, r => (st, o, r, false)
  | Nat.succ n, args, st, o, r =>
    match args with
    | [] =>
      match pyChoiceIdx (availableIdx st) r with
      | (r1, Except.error _) => (st, o, r1, true)
      | (r1, Except.ok i) =>
        match take_participant_turn i st o with
        | (st1, o1, true) => (st1, o1, r1, true)
        | (st1, o1, false) => nextLoop n args st1 o1 r1
    | a :: _ =>
      if a == "?" then
        match llm_pick_participant st o with
        | (st1, o1, Except.error _) => (st1, o1, r, true)
        | (st1, o1, Except.ok none) => nextLoop n args st1 o1 r
        | (st1, o1, Except.ok (some i)) =>
          match take_participant_turn i st1 o1 with
          | (st2, o2, true) => (st2, o2, r, true)
          | (st2, o2, false) => nextLoop n args st2 o2 r
      else
        match pick_participant_by_name st a with
        | (st1, none) => nextLoop n args st1 o r
        | (st1, some i) =>
          match take_participant_turn i st1 o with
          | (st2, o2, true) => (st2, o2, r, true)
          | (st2, o2, false) => nextLoop n args st2 o2 r

/-- Python `s.isdigit()` (ASCII model): nonempty and all digits. -/
def pyIsDigit (s : String) : Bool :=
  s != "" && s.data.all Char.isDigit

/-- workshop.py `Workshop.handle_next_command`: refuses outside STARTED
with a status message; otherwise takes `turn_to_take` turns (a leading
numeric argument, default 1), with the number stripped from the
remaining arguments. -/
def handle_next_command (args : List String) (st : Workshop) (o : Oracle) (r : RandSrc) :
    Workshop × Oracle × RandSrc × Bool :=
  if st.state == WorkshopState.STARTED then
    match args with
    | a :: rest =>
      if pyIsDigit a then nextLoop (a.toNat?.getD 0) rest st o r
      else nextLoop 1 args st o r
    | [] => nextLoop 1 [] st o r
  else
    ({ st with control_feedback := st.control_feedback ++
        ["Workshop has not started. Use /start to begin the workshop."] }, o, r, false)

/-- Builds a roster `Participant` from one configuration record, applying
the `.get` defaults and the dataclass defaults (contributions 0,
last_spoke_turn 0, mood neutral, empty prompts, fresh uuid). -/
def mkParticipant (d : PData) (u : String) : Participant :=
  { name := d.name, role := d.role,
    background := d.background.getD "",
    is_facilitator := d.is_facilitator.getD false,
    contributions := 0, last_spoke_turn := 0, mood := "neutral",
    prompts := [], uuid := u }

/-- The `for p_data in self.global_config["participants"]` loop of
`extract_participants`: each record becomes a Participant with a fresh
uuid (`us k`, counter threaded left to right); one marked facilitator
overwrites `facilitator` (last marked wins), the rest are appended to the
roster. -/
def extractLoop (us : Nat → String) :
    List PData → Nat → List Participant → Option Participant →
    List Participant × Option Participant
  | [], _, ps, f => (ps, f)
  | d :: rest, k, ps, f =>
    let p := mkParticipant d (us k)
    if p.is_facilitator then extractLoop us rest (k + 1) ps (some p)
    else extractLoop us rest (k + 1) (ps ++ [p]) f

/-- workshop.py `Workshop.extract_participants`: build the roster from
the configuration; when no facilitator was marked (nor already present),
append a warning and promote the first roster entry (popping it and
setting its flag); finally `random.shuffle` the roster via the injected
permutation `sh`. -/
def extract_participants (st : Workshop) (sh : List Participant → List Participant)
    (us : Nat → String) : Workshop :=
  let (ps, f) :=
    match st.global_config.participants with
    | some pds => extractLoop us pds 0 st.participants st.facilitator
    | none => (st.participants, st.facilitator)
  match f with
  | some _ => { st with participants := sh ps, facilitator := f }
  | none =>
    let fb := st.control_feedback ++
      ["Warning: No facilitator defined. First participant will be set as facilitator."]
    match ps with
    | [] => { st with participants := sh [], facilitator := none, control_feedback := fb }
    | p0 :: rest =>
      { st with participants := sh rest,
                facilitator := some { p0 with is_facilitator := true },
                control_feedback := fb }

/-- Appends one control message (`self.control_feedback.append(...)`). -/
def appendFeedback (st : Workshop) (msg : String) : Workshop :=
  { st with control_feedback := st.control_feedback ++ [msg] }

/-- workshop.py `Workshop.handle_start_command`.  Already STARTED: status
message only.  Unnamed workshop: status message only.  Otherwise
`extract_participants` runs FIRST; an empty roster after extraction
reports and returns, with the extraction mutations left in place.  On
success the started message is appended, the phase flips to STARTED and
one facilitator turn runs with the opening prompt. -/
def handle_start_command (sh : List Participant → List Participant) (us : Nat → String)
    (_args : List String) (st : Workshop) (o : Oracle) : Workshop × Oracle × Bool :=
  if st.state == WorkshopState.STARTED then
    (appendFeedback st "Workshop is already in progress.", o, false)
  else if !st.global_config.hasName then
    (appendFeedback st "Please create a workshop via loading config before starting.", o, false)
  else
    let st1 := extract_participants st sh us
    if st1.participants.isEmpty then
      (appendFeedback st1 "No participants found. Please load a configuration with participants.", o, false)
    else
      let st2 := { appendFeedback st1 "Workshop started. Use /next to proceed with turns."
                   with state := WorkshopState.STARTED }
      take_facilitator_turn st2 o

/-- workshop.py `Workshop.handle_say_command`: with at least one argument
it takes a facilitator turn (no lifecycle check at all), else a usage
message. -/
def handle_say_command (args : List String) (st : Workshop) (o : Oracle) :
    Workshop × Oracle × Bool :=
  if args.length ≥ 1 then take_facilitator_turn st o
  else (appendFeedback st "Usage: /say [content]", o, false)

/-- workshop.py `Workshop.handle_endsession_command`: appends the closing
record and flips the phase to ENDING, unconditionally. -/
def handle_endsession_command (st : Workshop) : Workshop :=
  { appendFeedback st "Workshop session ended." with state := WorkshopState.ENDING }

/-- workshop.py `Workshop.handle_backup_command`: with exactly one
argument it saves the state (the in-model serialization cannot fail, so
the success message is appended), else a usage message.  The written
snapshot itself does not feed back into engine state. -/
def handle_backup_command (args : List String) (st : Workshop) : Workshop :=
  match args with
  | [filename] => appendFeedback st ("Workshop state saved to " ++ filename ++ ".")
  | _ => appendFeedback st "Usage: /save [filename]"

/-- workshop.py `Workshop.handle_restore_command`: with exactly one
argument it loads the snapshot (the external file content is the
`snapshot` parameter, `none` when unreadable); any exception is caught
and reported; on success every field is replaced by the loaded state and
the loaded message appended.  Else a usage message. -/
def handle_restore_command (snapshot : Option SavedState) (args : List String)
    (st : Workshop) : Workshop :=
  match args with
  | [filename] =>
    match snapshot with
    | none => appendFeedback st ("Error loading workshop state from " ++ filename)
    | some sd =>
      match load_state sd with
      | none => appendFeedback st ("Error loading workshop state from " ++ filename)
      | some w => appendFeedback w ("Workshop state loaded from " ++ filename ++ ".")
  | _ => appendFeedback st "Usage: /load [filename]"

/-- workshop.py `Workshop.merge_configs`, restricted to the tracked keys:
the `workshop` dict is update-merged (a later name wins), the
`participants` list is extended. -/
def merge_configs (a b : Config) : Config :=
  { workshop_name :=
      match b.workshop_name with
      | some n => some n
      | none => a.workshop_name,
    participants :=
      match a.participants, b.participants with
      | some x, some y => some (x ++ y)
      | some x, none => some x
      | none, y => y }

/-- workshop.py `Workshop.handle_load_command`: with exactly one argument
it loads, merges and validates the YAML config (the external read plus
validation outcome is the `cfg` parameter, `none` for any exception,
which is caught and reported); on success the merge is applied and the
loaded message appended.  Else a usage message. -/
def handle_load_command (cfg : Option Config) (args : List String) (st : Workshop) : Workshop :=
  match args with
  | [filename] =>
    match cfg with
    | none => appendFeedback st ("Error loading configuration file " ++ filename)
    | some c =>
      appendFeedback { st with global_config := merge_configs st.global_config c }
        ("Configuration file " ++ filename ++ " loaded and merged.")
  | _ => appendFeedback st "Usage: /load [filename]"

/-- workshop.py `Workshop.handle_show_command`: appends the header and
the configuration rendering (a rich Pretty object in Python, modelled as
its rendered string). -/
def handle_show_command (st : Workshop) : Workshop :=
  appendFeedback (appendFeedback st "Current configuration:") (reprStr st.global_config)

/-- workshop.py `Workshop.handle_util_command`: no arguments is a usage
message; `summerize` makes an unprotected provider call (a failure
raises) and writes the summary to a file, touching no engine state; any
other action is reported unknown. -/
def handle_util_command (args : List String) (st : Workshop) (o : Oracle) :
    Workshop × Oracle × Bool :=
  match args with
  | [] => (appendFeedback st "Usage: /util [action] [parameters]", o, false)
  | action :: _ =>
    if action == "summerize" then
      match LLMInterface.get_response o false with
      | (o1, Except.error _) => (st, o1, true)
      | (o1, Except.ok _) => (st, o1, false)
    else (appendFeedback st ("Unknown util action: " ++ action), o, false)

/-- workshop.py `Workshop.handle_exit_command`: appends the exiting
message, backs up to the default path, then `sys.exit(0)`. -/
def handle_exit_command (st : Workshop) : Workshop :=
  handle_backup_command ["workshop_state.json"] (appendFeedback st "Exiting workshop.")

/-- How one dispatched command returns to the caller: normally, by an
uncaught exception, or by `sys.exit`. -/
inductive Outcome where
  | ok
  | raised
  | exited
deriving Repr, DecidableEq

/-- Python `command[1:].split()`: split on whitespace runs, no empty
tokens.  Defined over the character list for direct evaluation. -/
def pySplitChars : List Char → List Char → List String
  | [], acc => if acc.isEmpty then [] else [String.mk acc.reverse]
  | c :: rest, acc =>
    if c.isWhitespace then
      if acc.isEmpty then pySplitChars rest []
      else String.mk acc.reverse :: pySplitChars rest []
    else pySplitChars rest (c :: acc)

/-- Python `s.split()` with no separator argument. -/
def pySplit (s : String) : List String :=
  pySplitChars s.data []

/-- The external world of one command: the injected shuffle permutation
and uuid stream, and the contents behind the file reads of /load and
/restore (`none` for any read, parse or validation failure). -/
structure Env where
  sh : List Participant → List Participant
  us : Nat → String
  cfg : Option Config
  snapshot : Option SavedState

/-- workshop.py `Workshop.handle_command`: the dispatcher.  A line not
starting with the '/' marker is reported as invalid.  A line starting
with the marker is tokenized by `split()`; on the bare marker the token
list is empty and `parts[0]` raises IndexError.  An unknown verb is
reported.  Known verbs dispatch to their handlers, threading the oracle
and the random source. -/
def handle_command (env : Env) (command : String) (st : Workshop) (o : Oracle)
    (r : RandSrc) : Workshop × Oracle × RandSrc × Outcome :=
  if pyStartsWith command "/" then
    match pySplit (command.drop 1) with
    | [] => (st, o, r, Outcome.raised)
    | cmd :: args =>
      if cmd == "load" then (handle_load_command env.cfg args st, o, r, Outcome.ok)
      else if cmd == "show" then (handle_show_command st, o, r, Outcome.ok)
      else if cmd == "start" then
        match handle_start_command env.sh env.us args st o with
        | (st1, o1, raised) => (st1, o1, r, if raised then Outcome.raised else Outcome.ok)
      else if cmd == "say" then
        match handle_say_command args st o with
        | (st1, o1, raised) => (st1, o1, r, if raised then Outcome.raised else Outcome.ok)
      else if cmd == "next" then
        match handle_next_command args st o r with
        | (st1, o1, r1, raised) => (st1, o1, r1, if raised then Outcome.raised else Outcome.ok)
      else if cmd == "end" then (handle_endsession_command st, o, r, Outcome.ok)
      else if cmd == "util" then
        match handle_util_command args st o with
        | (st1, o1, raised) => (st1, o1, r, if raised then Outcome.raised else Outcome.ok)
      else if cmd == "backup" then (handle_backup_command args st, o, r, Outcome.ok)
      else if cmd == "restore" then (handle_restore_command env.snapshot args st, o, r, Outcome.ok)
      else if cmd == "exit" then (handle_exit_command st, o, r, Outcome.exited)
      else (appendFeedback st "Unknown command", o, r, Outcome.ok)
  else
    (appendFeedback st "Invalid command format. Commands should start with /", o, r, Outcome.ok)

/-- A sequence of /next commands dispatched back to back, each with its
argument list, threading the oracle and the random source; an uncaught
exception stops the run (the process has crashed). -/
def runNexts : List (List String) → Workshop → Oracle → RandSrc →
    Workshop × Oracle × RandSrc × Bool
  | [], st, o, r => (st, o, r, false)
  | args :: rest, st, o, r =>
    match handle_next_command args st o r with
    | (st1, o1, r1, true) => (st1, o1, r1, true)
    | (st1, o1, r1, false) => runNexts rest st1 o1 r1

/-- A non-facilitator roster member used in concrete runs. -/
def alice : Participant :=
  { name := "Alice", role := "engineer", background := "backend",
    is_facilitator := false, contributions := 0, last_spoke_turn := 0,
    mood := "neutral", prompts := [], uuid := "u-alice" }

/-- A second non-facilitator roster member. -/
def bob : Participant :=
  { name := "Bob", role := "designer", background := "visual",
    is_facilitator := false, contributions := 0, last_spoke_turn := 0,
    mood := "neutral", prompts := [], uuid := "u-bob" }

/-- The facilitator of the concrete runs. -/
def fred : Participant :=
  { name := "Fred", role := "facilitator", background := "ops",
    is_facilitator := true, contributions := 0, last_spoke_turn := 0,
    mood := "neutral", prompts := [], uuid := "u-fred" }

/-- A named configuration whose participants key is an empty list. -/
def demoConfig : Config :=
  { workshop_name := some "Demo", participants := some [] }

/-- A session in the STARTED phase with a two-member roster. -/
def startedWorkshop : Workshop :=
  { transcript_content := [], control_feedback := [], global_config := demoConfig,
    participants := [alice, bob], facilitator := some fred,
    current_participant_index := -1, state := WorkshopState.STARTED,
    previous_participant := none, current_turn := 0, tokens_used := 0,
    context_length := 4000, current_round := 0 }

/-- The same session after /end flipped the phase to ENDING. -/
def endingWorkshop : Workshop :=
  { startedWorkshop with state := WorkshopState.ENDING }

/-- An oracle for one fully successful turn: the generation reply and the
advisory check reply. -/
def demoOracle : Oracle :=
  [LLMReply.ok "Hello everyone" 7, LLMReply.ok "PASS good" 3]

/-- The state right after `Workshop.__init__`. -/
def freshWorkshop : Workshop :=
  { transcript_content := [], control_feedback := [],
    global_config := { workshop_name := none, participants := none },
    participants := [], facilitator := none,
    current_participant_index := -1, state := WorkshopState.NOT_STARTED,
    previous_participant := none, current_turn := 0, tokens_used := 0,
    context_length := 4000, current_round := 0 }

/-- An environment with the identity shuffle and no readable files. -/
def emptyEnv : Env :=
  { sh := id, us := fun _ => "", cfg := none, snapshot := none }

/-- A concrete uuid stream for roster extraction. -/
def uuidStream : Nat → String := fun k => "uuid-" ++ toString k

/-- The transcript discipline of section 8 of the spec: turn values are
strictly increasing along the transcript (hence unique), and never exceed
the session turn counter. -/
def transcriptInvariant (st : Workshop) : Prop :=
  List.Pairwise (· < ·) (st.transcript_content.map TranscriptEntry.turn) ∧
  ∀ e ∈ st.transcript_content, e.turn ≤ st.current_turn

/-- The invariant only reads the transcript and the turn counter. -/
theorem transcriptInvariant_congr {s t : Workshop}
    (ht : t.transcript_content = s.transcript_content)
    (hc : t.current_turn = s.current_turn)
    (h : transcriptInvariant s) : transcriptInvariant t := by
  unfold transcriptInvariant at h ⊢
  rw [ht, hc]
  exact h

/-- Appending an entry whose turn is one past the counter preserves the
invariant with the counter advanced. -/
theorem transcriptInvariant_append {st : Workshop} (h : transcriptInvariant st)
    (e : TranscriptEntry) (he : e.turn = st.current_turn + 1) :
    List.Pairwise (· < ·) ((st.transcript_content ++ [e]).map TranscriptEntry.turn) ∧
    ∀ x ∈ st.transcript_content ++ [e], x.turn ≤ st.current_turn + 1 := by
  obtain ⟨hp, hb⟩ := h
  constructor
  · rw [List.map_append, List.pairwise_append]
    refine ⟨hp, by simp, ?_⟩
    intro a ha b hb2
    simp at hb2
    obtain ⟨x, hx, rfl⟩ := List.mem_map.mp ha
    rw [hb2, he]
    exact Nat.lt_succ_of_le (hb x hx)
  · intro x hx
    rcases List.mem_append.mp hx with hx | hx
    · exact Nat.le_succ_of_le (hb x hx)
    · simp at hx
      rw [hx, he]

/-- A resolving attempted turn advances the counter by exactly one, for
every oracle, succeeding or failing. -/
theorem take_participant_turn_counter (i : Nat) (st : Workshop) (o : Oracle)
    (p : Participant) (hp : st.participants.get? i = some p) :
    ((take_participant_turn i st o).1).current_turn = st.current_turn + 1 := by
  unfold take_participant_turn
  rw [hp]
  rcases hg : Participant.generate_response o with ⟨o1, res⟩
  cases res <;> simp

/-- One participant turn preserves the transcript discipline, for every
oracle. -/
theorem take_participant_turn_invariant (i : Nat) (st : Workshop) (o : Oracle)
    (h : transcriptInvariant st) : transcriptInvariant (take_participant_turn i st o).1 := by
  unfold take_participant_turn
  rcases hp : st.participants.get? i with _ | p
  · simpa using h
  · rcases hg : Participant.generate_response o with ⟨o1, res⟩
    rcases res with e | ⟨resp, tokens⟩
    · exact ⟨h.1, fun e he => Nat.le_succ_of_le (h.2 e he)⟩
    · exact transcriptInvariant_append h _ rfl

/-- By-name selection touches only the feedback log. -/
theorem pick_participant_by_name_effects (st : Workshop) (a : String) :
    ((pick_participant_by_name st a).1).transcript_content = st.transcript_content ∧
    ((pick_participant_by_name st a).1).current_turn = st.current_turn := by
  unfold pick_participant_by_name
  rcases (List.range st.participants.length).filter _ with _ | ⟨j, rest⟩ <;> simp

/-- Provider-assisted selection touches only the feedback log. -/
theorem llm_pick_participant_effects (st : Workshop) (o : Oracle) :
    ((llm_pick_participant st o).1).transcript_content = st.transcript_content ∧
    ((llm_pick_participant st o).1).current_turn = st.current_turn := by
  unfold llm_pick_participant
  rcases o with _ | ⟨c, t⟩
  · simp [LLMInterface.get_response]
  · rcases c with ⟨cc, ct⟩ | _ <;> simp [LLMInterface.get_response]

/-- The turn loop of /next preserves the transcript discipline for every
argument list, oracle and random source. -/
theorem nextLoop_invariant (n : Nat) :
    ∀ (args : List String) (st : Workshop) (o : Oracle) (r : RandSrc),
      transcriptInvariant st → transcriptInvariant (nextLoop n args st o r).1 := by
  induction n with
  | zero => intro args st o r h; simpa [nextLoop] using h
  | succ n ih =>
    intro args st o r h
    unfold nextLoop
    split
    · split
      · exact h
      · next r1 i heq1 =>
          split
          · next st1 o1 heq =>
              have h2 := take_participant_turn_invariant i st o h
              rw [heq] at h2
              exact h2
          · next st1 o1 heq =>
              have h2 := take_participant_turn_invariant i st o h
              rw [heq] at h2
              exact ih _ st1 o1 _ h2
    · next a tail =>
        split
        · split
          · next st1 o1 heq =>
              have h2 := llm_pick_participant_effects st o
              rw [heq] at h2
              exact transcriptInvariant_congr h2.1 h2.2 h
          · next st1 o1 heq =>
              have h2 := llm_pick_participant_effects st o
              rw [heq] at h2
              exact ih _ st1 o1 _ (transcriptInvariant_congr h2.1 h2.2 h)
          · next st1 o1 i heq =>
              have h2 := llm_pick_participant_effects st o
              rw [heq] at h2
              have h3 := transcriptInvariant_congr h2.1 h2.2 h
              split
              · next st2 o2 heq2 =>
                  have h4 := take_participant_turn_invariant i st1 o1 h3
                  rw [heq2] at h4
                  exact h4
              · next st2 o2 heq2 =>
                  have h4 := take_participant_turn_invariant i st1 o1 h3
                  rw [heq2] at h4
                  exact ih _ st2 o2 _ h4
        · split
          · next st1 heq =>
              have h2 := pick_participant_by_name_effects st a
              rw [heq] at h2
              exact ih _ st1 o _ (transcriptInvariant_congr h2.1 h2.2 h)
          · next st1 i heq =>
              have h2 := pick_participant_by_name_effects st a
              rw [heq] at h2
              have h3 := transcriptInvariant_congr h2.1 h2.2 h
              split
              · next st2 o2 heq2 =>
                  have h4 := take_participant_turn_invariant i st1 o h3
                  rw [heq2] at h4
                  exact h4
              · next st2 o2 heq2 =>
                  have h4 := take_participant_turn_invariant i st1 o h3
                  rw [heq2] at h4
                  exact ih _ st2 o2 _ h4

/-- One /next command preserves the transcript discipline. -/
theorem handle_next_command_invariant (args : List String) (st : Workshop) (o : Oracle)
    (r : RandSrc) (h : transcriptInvariant st) :
    transcriptInvariant (handle_next_command args st o r).1 := by
  unfold handle_next_command
  by_cases hs : st.state == WorkshopState.STARTED
  · simp only [hs, if_true]
    rcases args with _ | ⟨a, rest⟩
    · exact nextLoop_invariant 1 [] st o r h
    · by_cases hd : pyIsDigit a
      · simp only [hd, if_true]
        exact nextLoop_invariant _ rest st o r h
      · simp only [hd, if_false]
        exact nextLoop_invariant 1 (a :: rest) st o r h
  · simp only [hs, if_false]
    exact ⟨h.1, h.2⟩

/-- Any dispatched sequence of /next commands preserves the transcript
discipline. -/
theorem runNexts_invariant (cmds : List (List String)) :
    ∀ (st : Workshop) (o : Oracle) (r : RandSrc),
      transcriptInvariant st → transcriptInvariant (runNexts cmds st o r).1 := by
  induction cmds with
  | nil => intro st o r h; simpa [runNexts] using h
  | cons args rest ih =>
    intro st o r h
    unfold runNexts
    split
    · next st1 o1 r1 heq =>
        have h2 := handle_next_command_invariant args st o r h
        rw [heq] at h2
        exact h2
    · next st1 o1 r1 heq =>
        have h2 := handle_next_command_invariant args st o r h
        rw [heq] at h2
        exact ih st1 o1 r1 h2

/-- Claim C2: an attempted turn advances current_turn by exactly one for
every oracle outcome, and along every sequence of /next commands run in
the Started phase the transcript keeps strictly increasing (hence never
reused) turn values bounded by the counter. -/
theorem next_commands_turn_discipline :
    (∀ (i : Nat) (st : Workshop) (o : Oracle) (p : Participant),
        st.participants.get? i = some p →
        ((take_participant_turn i st o).1).current_turn = st.current_turn + 1) ∧
    (∀ (cmds : List (List String)) (st : Workshop) (o : Oracle) (r : RandSrc),
        transcriptInvariant st → transcriptInvariant (runNexts cmds st o r).1) :=
  ⟨fun i st o p hp => take_participant_turn_counter i st o p hp,
   fun cmds st o r h => runNexts_invariant cmds st o r h⟩

/-- Claim C2 witness at a concrete session, oracle and random source. -/
theorem next_commands_turn_discipline_witness :
    ((take_participant_turn 0 startedWorkshop demoOracle).1).current_turn =
        startedWorkshop.current_turn + 1 ∧
    transcriptInvariant (runNexts [[], []] startedWorkshop demoOracle [0, 1]).1 :=
  ⟨next_commands_turn_discipline.1 0 startedWorkshop demoOracle alice rfl,
   next_commands_turn_discipline.2 [[], []] startedWorkshop demoOracle [0, 1]
     ⟨List.Pairwise.nil, by intro e he; cases he⟩⟩

/-- Claim C3 counterexample: with the provider failing on the first call,
/next in the Started session leaves the feedback log untouched (no
control message reports the failure), the selected speaker Alice has her
contributions and last_spoke_turn already mutated, and the exception
escapes the engine (raised flag), all contradicting the claim that the
turn-counter increment is the only mutation and that the failure is
surfaced as a reported control message. -/
theorem provider_failure_counterexample :
    ((handle_next_command [] startedWorkshop [LLMReply.err] [0]).1.control_feedback =
        startedWorkshop.control_feedback) ∧
    ((handle_next_command [] startedWorkshop [LLMReply.err] [0]).1.participants.get? 0 =
        some { alice with contributions := 1, last_spoke_turn := 1 }) ∧
    ((handle_next_command [] startedWorkshop [LLMReply.err] [0]).1.previous_participant =
        some { alice with contributions := 1, last_spoke_turn := 1 }) ∧
    (handle_next_command [] startedWorkshop [LLMReply.err] [0]).2.2.2 = true ∧
    alice.contributions = 0 ∧ startedWorkshop.previous_participant = none := by
  refine ⟨rfl, rfl, rfl, rfl, rfl, rfl⟩

/-- Claim C3 amended: when the provider call of a participant turn fails,
the exception propagates uncaught (no control message is appended); the
mutations already performed before the call stand — current_turn is
incremented, the actor gets contributions + 1 and last_spoke_turn set to
the new turn, and previous_participant is the updated actor — while the
transcript, tokens_used and the feedback log are untouched. -/
theorem provider_failure_effects (i : Nat) (st : Workshop) (o o1 : Oracle)
    (p : Participant) (hp : st.participants.get? i = some p)
    (hfail : Participant.generate_response o = (o1, Except.error ())) :
    take_participant_turn i st o =
      ({ st with
          participants := st.participants.set i
            { p with contributions := p.contributions + 1,
                     last_spoke_turn := st.current_turn + 1 },
          previous_participant :=
            some { p with contributions := p.contributions + 1,
                          last_spoke_turn := st.current_turn + 1 },
          current_turn := st.current_turn + 1 }, o1, true) := by
  unfold take_participant_turn
  rw [hp, hfail]

/-- Claim C3 amended witness: the concrete failing turn of the
counterexample realizes the amended description. -/
theorem provider_failure_effects_witness :
    take_participant_turn 0 startedWorkshop [LLMReply.err] =
      ({ startedWorkshop with
          participants := startedWorkshop.participants.set 0
            { alice with contributions := 1, last_spoke_turn := 1 },
          previous_participant := some { alice with contributions := 1, last_spoke_turn := 1 },
          current_turn := 1 }, [], true) :=
  provider_failure_effects 0 startedWorkshop [LLMReply.err] [] alice rfl rfl

/-- Claim C4 counterexample: with the provider successfully suggesting
"Next speaker: Zed" (no participant named Zed exists), /next ? neither
falls back to random selection nor takes a turn: the session state is
returned unchanged (no transcript entry, no counter advance) and the
exception escapes — the suggestion is requested with get_tokens=False,
so the raw response object is split as if it were a string and
AttributeError is raised before any parsing. -/
theorem llm_selection_counterexample :
    ((handle_next_command ["?"] startedWorkshop
        [LLMReply.ok "Next speaker: Zed" 5] [0]).1 = startedWorkshop) ∧
    (handle_next_command ["?"] startedWorkshop
        [LLMReply.ok "Next speaker: Zed" 5] [0]).2.2.2 = true := by
  refine ⟨rfl, rfl⟩

/-- Claim C4 amended: provider-assisted selection never falls back to the
random policy.  In the Started phase, /next ? leaves the session state
unchanged and raises for every oracle: a provider failure propagates, and
a provider success returns the raw response object (the suggestion is
requested without token extraction), whose split raises AttributeError
before the name is ever resolved; the turn is aborted either way. -/
theorem llm_selection_always_raises (st : Workshop) (o : Oracle) (r : RandSrc)
    (h : st.state = WorkshopState.STARTED) :
    (handle_next_command ["?"] st o r).1 = st ∧
    (handle_next_command ["?"] st o r).2.2.2 = true := by
  have hd : pyIsDigit "?" = false := rfl
  unfold handle_next_command
  rw [h]
  simp only [beq_self_eq_true, if_true, hd, Bool.false_eq_true, if_false]
  rcases o with _ | ⟨c, t⟩
  · simp [nextLoop, llm_pick_participant, LLMInterface.get_response]
  · rcases c with ⟨cc, ct⟩ | _ <;>
      simp [nextLoop, llm_pick_participant, LLMInterface.get_response]

/-- Claim C4 amended witness at the concrete suggestion of the
counterexample. -/
theorem llm_selection_always_raises_witness :
    (handle_next_command ["?"] startedWorkshop
        [LLMReply.ok "Next speaker: Zed" 5] [0]).1 = startedWorkshop ∧
    (handle_next_command ["?"] startedWorkshop
        [LLMReply.ok "Next speaker: Zed" 5] [0]).2.2.2 = true :=
  llm_selection_always_raises startedWorkshop [LLMReply.ok "Next speaker: Zed" 5] [0] rfl

/-- A configuration record marked as facilitator. -/
def annData : PData :=
  { name := "Ann", role := "lead", background := none, is_facilitator := some true }

/-- A fresh session whose loaded configuration names the workshop and
holds exactly one participant, marked facilitator. -/
def preStartSolo : Workshop :=
  { freshWorkshop with
      global_config := { workshop_name := some "Demo", participants := some [annData] } }

/-- Claim C5 counterexample: starting preStartSolo fails its empty-roster
precondition (the sole participant becomes the facilitator, leaving no
roster), yet the state is mutated on the failure path: the facilitator
field changes from none to the extracted Ann, contradicting the claim
that no field is mutated. -/
theorem start_failure_counterexample :
    ((handle_start_command id uuidStream [] preStartSolo []).1.facilitator =
        some (mkParticipant annData (uuidStream 0))) ∧
    preStartSolo.facilitator = none ∧
    ((handle_start_command id uuidStream [] preStartSolo []).1.state =
        WorkshopState.NOT_STARTED) := by
  refine ⟨rfl, rfl, rfl⟩

/-- Roster extraction never touches the lifecycle phase, the turn counter
or the transcript. -/
theorem extract_participants_phase (st : Workshop)
    (sh : List Participant → List Participant) (us : Nat → String) :
    (extract_participants st sh us).state = st.state ∧
    (extract_participants st sh us).current_turn = st.current_turn ∧
    (extract_participants st sh us).transcript_content = st.transcript_content := by
  unfold extract_participants
  repeat' split
  all_goals simp

/-- Claim C5 amended: a start issued in NotStarted that fails its
preconditions takes no turn and leaves the phase NotStarted, but the two
failure paths differ: the unnamed-workshop failure only appends the
report to the feedback log, while the empty-roster failure first runs
extract_participants, whose mutations (facilitator assignment, roster
shuffle, warning) remain in the state alongside the report. -/
theorem start_failure_effects (sh : List Participant → List Participant)
    (us : Nat → String) (args : List String) (st : Workshop) (o : Oracle)
    (h : st.state = WorkshopState.NOT_STARTED) :
    (st.global_config.hasName = false →
      handle_start_command sh us args st o =
        (appendFeedback st "Please create a workshop via loading config before starting.",
          o, false)) ∧
    (st.global_config.hasName = true →
      (extract_participants st sh us).participants = [] →
      handle_start_command sh us args st o =
        (appendFeedback (extract_participants st sh us)
          "No participants found. Please load a configuration with participants.", o, false) ∧
      (extract_participants st sh us).state = WorkshopState.NOT_STARTED ∧
      (extract_participants st sh us).current_turn = st.current_turn ∧
      (extract_participants st sh us).transcript_content = st.transcript_content) := by
  constructor
  · intro hn
    unfold handle_start_command
    rw [h, hn]
    rfl
  · intro hn hemp
    have hph := extract_participants_phase st sh us
    refine ⟨?_, by rw [hph.1, h], hph.2.1, hph.2.2⟩
    unfold handle_start_command
    rw [h, hn]
    dsimp only
    rw [hemp]
    rfl

/-- Claim C5 amended witness: the concrete empty-roster failure of the
counterexample. -/
theorem start_failure_effects_witness :
    (handle_start_command id uuidStream [] preStartSolo [] =
      (appendFeedback (extract_participants preStartSolo id uuidStream)
        "No participants found. Please load a configuration with participants.", [], false)) ∧
    (extract_participants preStartSolo id uuidStream).state = WorkshopState.NOT_STARTED ∧
    (extract_participants preStartSolo id uuidStream).current_turn = preStartSolo.current_turn ∧
    (extract_participants preStartSolo id uuidStream).transcript_content =
      preStartSolo.transcript_content :=
  (start_failure_effects id uuidStream [] preStartSolo [] rfl).2 rfl rfl

/-- Claim C6 counterexample: in the Ending phase, /say takes a further
facilitator turn (a transcript entry is appended) without changing the
phase, and /start with the valid configuration moves the phase out of
Ending back to Started and takes a turn — so Ending is not terminal at
the command level. -/
theorem ending_not_terminal_counterexample :
    endingWorkshop.state = WorkshopState.ENDING ∧
    ((handle_say_command ["hi"] endingWorkshop demoOracle).1.transcript_content.length =
        endingWorkshop.transcript_content.length + 1) ∧
    ((handle_say_command ["hi"] endingWorkshop demoOracle).1.state = WorkshopState.ENDING) ∧
    ((handle_start_command id uuidStream [] endingWorkshop demoOracle).1.state =
        WorkshopState.STARTED) ∧
    ((handle_start_command id uuidStream [] endingWorkshop demoOracle).1.current_turn =
        endingWorkshop.current_turn + 1) := by
  refine ⟨rfl, rfl, rfl, rfl, rfl⟩

/-- Claim C6 amended: /end appends the closing record and flips the phase
to Ending, and /next is indeed inert in Ending (status message only, no
turn, phase kept) — but /say and /start carry no phase guard, so Ending
is terminal only because the driving main loop stops dispatching
commands once the phase is Ending, not at the command handlers. -/
theorem ending_phase_effects :
    (∀ st : Workshop,
      (handle_endsession_command st).state = WorkshopState.ENDING ∧
      (handle_endsession_command st).control_feedback =
        st.control_feedback ++ ["Workshop session ended."]) ∧
    (∀ (args : List String) (st : Workshop) (o : Oracle) (r : RandSrc),
      st.state = WorkshopState.ENDING →
      handle_next_command args st o r =
        ({ st with control_feedback := st.control_feedback ++
            ["Workshop has not started. Use /start to begin the workshop."] }, o, r, false)) := by
  constructor
  · intro st
    exact ⟨rfl, rfl⟩
  · intro args st o r h
    unfold handle_next_command
    rw [h]
    rfl

/-- Claim C6 amended witness: /next in the concrete Ending session only
appends the status message. -/
theorem ending_phase_effects_witness :
    handle_next_command [] endingWorkshop demoOracle [0] =
      ({ endingWorkshop with control_feedback := endingWorkshop.control_feedback ++
          ["Workshop has not started. Use /start to begin the workshop."] },
        demoOracle, [0], false) :=
  ending_phase_effects.2 [] endingWorkshop demoOracle [0] rfl

/-- Claim C7: the dispatcher handles a line without the leading marker,
an unknown verb, and wrong arity by appending a control message and
returning normally — but the bare line "/" tokenizes to an empty list
and `parts[0]` raises IndexError, escaping to the caller.  The code slip
is exhibited at the failing input alongside the intended behaviour of the
other malformed classes. -/
theorem malformed_command_dispatch :
    (handle_command emptyEnv "/" freshWorkshop [] []).2.2.2 = Outcome.raised ∧
    ((handle_command emptyEnv "hello" freshWorkshop [] []).2.2.2 = Outcome.ok ∧
      (handle_command emptyEnv "hello" freshWorkshop [] []).1.control_feedback =
        ["Invalid command format. Commands should start with /"]) ∧
    ((handle_command emptyEnv "/frobnicate" freshWorkshop [] []).2.2.2 = Outcome.ok ∧
      (handle_command emptyEnv "/frobnicate" freshWorkshop [] []).1.control_feedback =
        ["Unknown command"]) ∧
    ((handle_command emptyEnv "/say" freshWorkshop [] []).2.2.2 = Outcome.ok ∧
      (handle_command emptyEnv "/say" freshWorkshop [] []).1.control_feedback =
        ["Usage: /say [content]"]) ∧
    ((handle_command emptyEnv "/backup" freshWorkshop [] []).2.2.2 = Outcome.ok ∧
      (handle_command emptyEnv "/backup" freshWorkshop [] []).1.control_feedback =
        ["Usage: /save [filename]"]) := by
  refine ⟨rfl, ⟨rfl, rfl⟩, ⟨rfl, rfl⟩, ⟨rfl, rfl⟩, ⟨rfl, rfl⟩⟩

/-- When no configuration record is marked facilitator, the extraction
loop appends one roster member per record and leaves the facilitator
unset. -/
theorem extractLoop_all_unmarked (us : Nat → String) (pds : List PData) :
    ∀ (k : Nat) (ps : List Participant),
      (∀ d ∈ pds, d.is_facilitator.getD false = false) →
      ∃ qs : List Participant,
        extractLoop us pds k ps none = (ps ++ qs, none) ∧ qs.length = pds.length := by
  induction pds with
  | nil => intro k ps _; exact ⟨[], by simp [extractLoop], rfl⟩
  | cons d rest ih =>
    intro k ps h
    have hd : (mkParticipant d (us k)).is_facilitator = false := by
      simpa [mkParticipant] using h d (List.mem_cons_self d rest)
    obtain ⟨qs, hq, hl⟩ := ih (k + 1) (ps ++ [mkParticipant d (us k)])
      (fun x hx => h x (List.mem_cons_of_mem d hx))
    refine ⟨mkParticipant d (us k) :: qs, ?_, by simp [hl]⟩
    unfold extractLoop
    dsimp only
    rw [hd]
    simpa using hq

/-- Claim C8: starting from a pre-start state (empty roster, no
facilitator) with a configuration whose participant records carry no
facilitator mark, extraction promotes the first extracted entry: it
becomes the facilitator with its flag set, the roster shrinks by exactly
one relative to the extracted list, and the warning is appended to the
feedback log.  The shuffle source is any length-preserving permutation. -/
theorem extract_promotes_first (st : Workshop)
    (sh : List Participant → List Participant) (us : Nat → String)
    (d0 : PData) (rest : List PData)
    (hcfg : st.global_config.participants = some (d0 :: rest))
    (hnone : ∀ d ∈ d0 :: rest, d.is_facilitator.getD false = false)
    (hfac : st.facilitator = none) (hps : st.participants = [])
    (hsh : ∀ l, (sh l).length = l.length) :
    (extract_participants st sh us).facilitator =
      some { mkParticipant d0 (us 0) with is_facilitator := true } ∧
    ((extract_participants st sh us).facilitator.map Participant.is_facilitator =
      some true) ∧
    (extract_participants st sh us).participants.length = (d0 :: rest).length - 1 ∧
    (extract_participants st sh us).control_feedback = st.control_feedback ++
      ["Warning: No facilitator defined. First participant will be set as facilitator."] := by
  have hd : (mkParticipant d0 (us 0)).is_facilitator = false := by
    simpa [mkParticipant] using hnone d0 (List.mem_cons_self d0 rest)
  obtain ⟨qs, hq, hl⟩ := extractLoop_all_unmarked us rest 1 [mkParticipant d0 (us 0)]
    (fun x hx => hnone x (List.mem_cons_of_mem d0 hx))
  have hloop : extractLoop us (d0 :: rest) 0 st.participants st.facilitator =
      (mkParticipant d0 (us 0) :: qs, none) := by
    rw [hps, hfac]
    unfold extractLoop
    dsimp only
    rw [hd]
    simpa using hq
  unfold extract_participants
  rw [hcfg]
  dsimp only
  rw [hloop]
  dsimp only
  refine ⟨rfl, by simp, ?_, rfl⟩
  simp [hsh, hl]

/-- An unmarked configuration record (missing is_facilitator key). -/
def carlData : PData :=
  { name := "Carl", role := "analyst", background := some "data", is_facilitator := none }

/-- An unmarked configuration record (explicit false). -/
def danaData : PData :=
  { name := "Dana", role := "writer", background := none, is_facilitator := some false }

/-- A fresh session configured with two participants, none marked
facilitator. -/
def preStartPlain : Workshop :=
  { freshWorkshop with
      global_config := { workshop_name := some "Demo",
                         participants := some [carlData, danaData] } }

/-- Claim C8 witness: promoting Carl in the concrete two-member
configuration. -/
theorem extract_promotes_first_witness :
    (extract_participants preStartPlain id uuidStream).facilitator =
      some { mkParticipant carlData (uuidStream 0) with is_facilitator := true } ∧
    ((extract_participants preStartPlain id uuidStream).facilitator.map
        Participant.is_facilitator = some true) ∧
    (extract_participants preStartPlain id uuidStream).participants.length =
      ([carlData, danaData] : List PData).length - 1 ∧
    (extract_participants preStartPlain id uuidStream).control_feedback =
      preStartPlain.control_feedback ++
        ["Warning: No facilitator defined. First participant will be set as facilitator."] :=
  extract_promotes_first preStartPlain id uuidStream carlData [danaData]
    rfl (by decide) rfl rfl (fun l => rfl)

/-- Claim C9 counterexample: a fully successful facilitator turn appends
a transcript entry with turn 1, yet the acting speaker Fred keeps
contributions 0 and last_spoke_turn 0 — take_facilitator_turn never
calls update_stats, contradicting the claim for the facilitator case. -/
theorem facilitator_stats_counterexample :
    ((take_facilitator_turn startedWorkshop demoOracle).1.facilitator = some fred) ∧
    fred.contributions = 0 ∧ fred.last_spoke_turn = 0 ∧
    ((take_facilitator_turn startedWorkshop demoOracle).1.transcript_content.map
        TranscriptEntry.turn = [1]) ∧
    ((take_facilitator_turn startedWorkshop demoOracle).2.2 = false) := by
  refine ⟨rfl, rfl, rfl, rfl, rfl⟩

/-- Claim C9 amended: on a successful participant turn the actor gets
contributions + 1 and last_spoke_turn set to the appended entry's turn,
and a TranscriptEntry with the current round and the new turn is
appended; on a successful facilitator turn the entry is likewise
appended but the facilitator record (contributions, last_spoke_turn) is
left untouched. -/
theorem successful_turn_effects :
    (∀ (i : Nat) (st : Workshop) (o o1 : Oracle) (p : Participant) (resp : String)
        (tokens : Nat),
      st.participants.get? i = some p →
      Participant.generate_response o = (o1, Except.ok (resp, tokens)) →
      (take_participant_turn i st o).1.participants.get? i =
        some { p with contributions := p.contributions + 1,
                      last_spoke_turn := st.current_turn + 1 } ∧
      (take_participant_turn i st o).1.transcript_content =
        st.transcript_content ++
          [{ round := st.current_round, turn := st.current_turn + 1,
             participant_uuid := p.uuid, content := resp }] ∧
      (take_participant_turn i st o).2.2 = false) ∧
    (∀ (st : Workshop) (o o1 : Oracle) (f : Participant) (resp : String) (tokens : Nat),
      st.facilitator = some f →
      Participant.generate_response o = (o1, Except.ok (resp, tokens)) →
      (take_facilitator_turn st o).1.facilitator = some f ∧
      (take_facilitator_turn st o).1.transcript_content =
        st.transcript_content ++
          [{ round := st.current_round, turn := st.current_turn + 1,
             participant_uuid := f.uuid, content := resp }] ∧
      (take_facilitator_turn st o).2.2 = false) := by
  constructor
  · intro i st o o1 p resp tokens hp hok
    unfold take_participant_turn
    rw [hp]
    dsimp only
    rw [hok]
    dsimp only
    refine ⟨?_, rfl, rfl⟩
    rw [List.get?_set_eq, hp]
    rfl
  · intro st o o1 f resp tokens hf hok
    unfold take_facilitator_turn
    rw [hf]
    dsimp only
    rw [hok]
    dsimp only
    exact ⟨rfl, rfl, rfl⟩

/-- Claim C9 amended witness: the concrete successful participant turn. -/
theorem successful_turn_effects_witness :
    ((take_participant_turn 0 startedWorkshop demoOracle).1.participants.get? 0 =
      some { alice with contributions := 1, last_spoke_turn := 1 }) ∧
    ((take_participant_turn 0 startedWorkshop demoOracle).1.transcript_content =
      startedWorkshop.transcript_content ++
        [{ round := 0, turn := 1, participant_uuid := alice.uuid,
           content := "PASS: Hello everyone" }]) ∧
    ((take_participant_turn 0 startedWorkshop demoOracle).2.2 = false) :=
  successful_turn_effects.1 0 startedWorkshop demoOracle [] alice
    "PASS: Hello everyone" 7 rfl rfl

/-- Claim C10: after a successful turn tokens_used equals the token
count of that turn's generation call alone, for every prior value of
tokens_used (the assignment overwrites, never accumulates) and whatever
the advisory check call reports. -/
theorem tokens_used_overwrite :
    (∀ (i : Nat) (st : Workshop) (p : Participant) (c : String) (t : Nat) (c2 : String)
        (t2 : Nat) (o2 : Oracle),
      st.participants.get? i = some p →
      (take_participant_turn i st
        (LLMReply.ok c t :: LLMReply.ok c2 t2 :: o2)).1.tokens_used = t) ∧
    (∀ (st : Workshop) (f : Participant) (c : String) (t : Nat) (c2 : String) (t2 : Nat)
        (o2 : Oracle),
      st.facilitator = some f →
      (take_facilitator_turn st
        (LLMReply.ok c t :: LLMReply.ok c2 t2 :: o2)).1.tokens_used = t) := by
  have hg : ∀ (c : String) (t : Nat) (c2 : String) (t2 : Nat) (o2 : Oracle),
      Participant.generate_response (LLMReply.ok c t :: LLMReply.ok c2 t2 :: o2) =
        (o2, Except.ok ((if pyPassJudgement c2 then "PASS: " else "FAIL: ") ++ c, t)) :=
    fun c t c2 t2 o2 => rfl
  constructor
  · intro i st p c t c2 t2 o2 hp
    unfold take_participant_turn
    rw [hp]
    dsimp only
    rw [hg]
  · intro st f c t c2 t2 o2 hf
    unfold take_facilitator_turn
    rw [hf]
    dsimp only
    rw [hg]

/-- A session with a large accumulated tokens_used before the turn. -/
def richTokens : Workshop := { startedWorkshop with tokens_used := 999 }

/-- Claim C10 witness: both turn kinds replace the stale 999 with the 42
of the new generation call (the check call's 3 tokens are not counted). -/
theorem tokens_used_overwrite_witness :
    (take_participant_turn 0 richTokens
        [LLMReply.ok "Hi" 42, LLMReply.ok "PASS" 3]).1.tokens_used = 42 ∧
    (take_facilitator_turn richTokens
        [LLMReply.ok "Hi" 42, LLMReply.ok "PASS" 3]).1.tokens_used = 42 :=
  ⟨tokens_used_overwrite.1 0 richTokens alice "Hi" 42 "PASS" 3 [] rfl,
   tokens_used_overwrite.2 richTokens fred "Hi" 42 "PASS" 3 [] rfl⟩
